import Mathlib

/-!
Verification of the `go-msvc/http` REST server dispatcher
(`src/server/server.go`) against its natural-language specification.

The single source file implements an HTTP-to-operation dispatcher:
`ServeHTTP` parses the operation name from the URL path, looks the
operation up in the micro-service registry, JSON-decodes and validates
the body, invokes the handler with a fresh context, and either JSON
serializes the response or translates the error to an HTTP status via a
deferred error translator.

External collaborators (the `go-msvc/errors` structured-error library,
Go's `net/http` ResponseWriter and status table, and `encoding/json`)
are modelled at their interface boundary, following the spec's data
model and Go's documented standard-library behaviour.
-/

namespace GoHttp

/-- Structured error, modelling `github.com/go-msvc/errors` values as the
spec's data model describes them: `{ message: string, statusCode: optional
integer }`.  `code = none` models both a plain (non-`IError`) error and an
`IError` whose `Code()` is `0` (for which `http.StatusText` is empty). -/
structure ErrVal where
  message : String
  code : Option Int
deriving DecidableEq, Repr

/-- Modelled from the spec: `errors.Errorc(code, msg)` builds a structured
error carrying an embedded status code. -/
def errorc (c : Int) (msg : String) : ErrVal := ⟨msg, some c⟩

/-- Modelled from the spec: `errors.Errorf(msg)` builds a structured error
with no embedded status code. -/
def errorf (msg : String) : ErrVal := ⟨msg, none⟩

/-- Modelled from the spec: `errors.Wrapf(err, ctxMsg)` wraps an error with
a context message; per the spec the wrapping "must preserve any embedded
status code from the original error". -/
def wrapf (e : ErrVal) (ctxMsg : String) : ErrVal :=
  ⟨ctxMsg ++ ": " ++ e.message, e.code⟩

/-- Go's `net/http` `StatusText` table (empty string for an unrecognized
code), used by `ServeHTTP`'s deferred translator at src/server/server.go:62
to decide whether an embedded code is a recognized HTTP status. -/
def statusText (c : Int) : String :=
  match c with
  | 100 => "Continue"
  | 101 => "Switching Protocols"
  | 102 => "Processing"
  | 103 => "Early Hints"
  | 200 => "OK"
  | 201 => "Created"
  | 202 => "Accepted"
  | 203 => "Non-Authoritative Information"
  | 204 => "No Content"
  | 205 => "Reset Content"
  | 206 => "Partial Content"
  | 207 => "Multi-Status"
  | 208 => "Already Reported"
  | 226 => "IM Used"
  | 300 => "Multiple Choices"
  | 301 => "Moved Permanently"
  | 302 => "Found"
  | 303 => "See Other"
  | 304 => "Not Modified"
  | 305 => "Use Proxy"
  | 307 => "Temporary Redirect"
  | 308 => "Permanent Redirect"
  | 400 => "Bad Request"
  | 401 => "Unauthorized"
  | 402 => "Payment Required"
  | 403 => "Forbidden"
  | 404 => "Not Found"
  | 405 => "Method Not Allowed"
  | 406 => "Not Acceptable"
  | 407 => "Proxy Authentication Required"
  | 408 => "Request Timeout"
  | 409 => "Conflict"
  | 410 => "Gone"
  | 411 => "Length Required"
  | 412 => "Precondition Failed"
  | 413 => "Request Entity Too Large"
  | 414 => "Request URI Too Long"
  | 415 => "Unsupported Media Type"
  | 416 => "Requested Range Not Satisfiable"
  | 417 => "Expectation Failed"
  | 418 => "I\x27m a teapot"
  | 421 => "Misdirected Request"
  | 422 => "Unprocessable Entity"
  | 423 => "Locked"
  | 424 => "Failed Dependency"
  | 425 => "Too Early"
  | 426 => "Upgrade Required"
  | 428 => "Precondition Required"
  | 429 => "Too Many Requests"
  | 431 => "Request Header Fields Too Large"
  | 451 => "Unavailable For Legal Reasons"
  | 500 => "Internal Server Error"
  | 501 => "Not Implemented"
  | 502 => "Bad Gateway"
  | 503 => "Service Unavailable"
  | 504 => "Gateway Timeout"
  | 505 => "HTTP Version Not Supported"
  | 506 => "Variant Also Negotiates"
  | 507 => "Insufficient Storage"
  | 508 => "Loop Detected"
  | 510 => "Not Extended"
  | 511 => "Network Authentication Required"
  | _ => ""

/-- The deferred error translator's status resolution
(src/server/server.go:59-66): start from 500; if the error carries a code
whose `StatusText` is non-empty, use that code instead. -/
def resolveCode (e : ErrVal) : Int :=
  match e.code with
  | some c => if statusText c ≠ "" then c else 500
  | none => 500

/-! ### The HTTP response writer

Model of Go's `net/http.ResponseWriter` as observed by `ServeHTTP`: a
header map (only `Content-Type` matters here), and a commit flag — the
first `Write`/`WriteHeader` freezes the status line and the headers; later
`WriteHeader` calls are superfluous and later header mutations are not
sent, while `Write` keeps appending to the body. -/

/-- State of the response writer.  `sentStatus`/`sentCT` are the status
line and `Content-Type` frozen at the first `WriteHeader`; before any
commit the transport would send `200` with the current headers. -/
structure RW where
  ct : Option String
  committed : Bool
  sentStatus : Int
  sentCT : Option String
  sentBody : String
deriving DecidableEq, Repr

def RW.start : RW := ⟨none, false, 0, none, ""⟩

/-- `httpRes.Header().Set("Content-Type", v)`: mutates the header map;
has no effect on the wire once the headers are committed. -/
def RW.setCT (rw : RW) (v : Option String) : RW := { rw with ct := v }

/-- `WriteHeader(code)`: commits status and headers; a second call is
ignored (Go logs "superfluous WriteHeader" and does nothing). -/
def RW.writeHeader (rw : RW) (code : Int) : RW :=
  if rw.committed then rw
  else { rw with committed := true, sentStatus := code, sentCT := rw.ct }

/-- `Write(data)`: an implicit `WriteHeader(200)` if not yet committed
(Go does this even for an empty slice), then appends to the body. -/
def RW.write (rw : RW) (data : String) : RW :=
  let rw := rw.writeHeader 200
  { rw with sentBody := rw.sentBody ++ data }

/-- The status the client observes: the committed status, or the
transport's default `200` when the handler wrote nothing. -/
def RW.finalStatus (rw : RW) : Int := if rw.committed then rw.sentStatus else 200

/-- The `Content-Type` the client observes. -/
def RW.finalCT (rw : RW) : Option String := if rw.committed then rw.sentCT else rw.ct

/-- The body the client observes. -/
def RW.finalBody (rw : RW) : String := rw.sentBody

/-- Go's `http.Error(w, msg, code)`: set `Content-Type` to plain text,
`WriteHeader(code)`, then write the message followed by a newline. -/
def httpError (rw : RW) (msg : String) (code : Int) : RW :=
  ((rw.setCT (some "text/plain; charset=utf-8")).writeHeader code).write (msg ++ "\n")

/-! ### Path splitting

`strings.SplitN(path, "/", 2)` (src/server/server.go:80): at most two
pieces — everything before the first `/`, and the entire remainder after
it; the whole string if it contains no `/`. -/

/-- Break a character list at the first `'/'`: `none` when there is no
slash, otherwise the part before and the part after it. -/
def breakSlash : List Char → Option (List Char × List Char)
  | [] => none
  | c :: cs =>
    if c = '/' then some ([], cs)
    else (breakSlash cs).map (fun p => (c :: p.1, p.2))

/-- `strings.SplitN(s, "/", 2)`. -/
def splitN2 (s : String) : List String :=
  match breakSlash s.data with
  | none => [s]
  | some (a, b) => [String.mk a, String.mk b]

/-! ### Data model: operations, registry, requests -/

/-- Outcome of `json.NewDecoder(body).Decode(ptr)` for a declared request
shape, modelling `encoding/json` at its interface: `ok v` is a successful
decode producing `v`; `eof` is the `io.EOF` an empty body yields, leaving
the freshly allocated value at its zero value; `fail` is any other parse
error with its message. -/
inductive DecodeResult (V : Type) where
  | ok (v : V)
  | eof
  | fail (msg : String)
deriving DecidableEq, Repr

/-- A declared request shape: the type identity (`oper.ReqType()` printed
in decode errors), the zero value `reflect.New` allocates, the JSON
decoder for the shape, and an optional `ms.Validator` capability. -/
structure ReqShape (V : Type) where
  typeName : String
  zero : V
  decode : String → DecodeResult V
  validate : Option (V → Option ErrVal)

/-- An operation descriptor: `ReqType()` (possibly absent) and
`Handle(ctx, req) -> (res, err)`.  `res = none` models a nil response. -/
structure Oper (Ctx V : Type) where
  reqShape : Option (ReqShape V)
  handle : Ctx → Option V → Option V × Option ErrVal

/-- The micro-service collaborator: the registry of named operations, the
per-request context factory `NewContext()`, and `json.Marshal` on
response values (modelled at its interface: serialized bytes or an
error message). -/
structure MicroService (Ctx V : Type) where
  opers : List (String × Oper Ctx V)
  newContext : Unit → Ctx
  marshal : V → Except String String

/-- `s.ms.OperNames()`: all registered operation names. -/
def MicroService.operNames {Ctx V : Type} (ms : MicroService Ctx V) : List String :=
  ms.opers.map Prod.fst

/-- `s.ms.Oper(name)`: registry lookup, `none` on a miss. -/
def MicroService.oper {Ctx V : Type} (ms : MicroService Ctx V) (name : String) :
    Option (Oper Ctx V) :=
  (ms.opers.find? (fun p => p.1 == name)).map Prod.snd

/-- An inbound HTTP request as `ServeHTTP` consumes it. -/
structure HRequest where
  method : String
  path : String
  body : String

/-- Observable collaborator events, to state when the registry is
consulted, the context factory runs, and the handler is invoked (with
which decoded argument). -/
inductive Event (V : Type) where
  | lookup (name : String)
  | newContext
  | handle (name : String) (arg : Option V)
deriving DecidableEq, Repr

/-! ### The dispatcher (`ServeHTTP`, src/server/server.go:54-123) -/

/-- The operation-name block (src/server/server.go:78-86): split the path
at the first `/` into at most two pieces; fail with a 400 unless there
are two pieces, the first is empty and the second non-empty; the
operation name is the second piece (the entire remainder of the path). -/
def parseOper (path : String) : Except ErrVal String :=
  match splitN2 path with
  | [first, rest] =>
    if first = "" ∧ rest ≠ "" then .ok rest
    else .error (errorc 400 "URL does not start with /<operName>")
  | _ => .error (errorc 400 "URL does not start with /<operName>")

/-- The decode-and-validate block (src/server/server.go:93-107): if the
operation declares no request shape the request stays absent; otherwise
decode the body (a genuine parse failure is a 400 naming the shape;
`io.EOF` is tolerated, leaving the zero value), then run the optional
validation capability (failure is a 400 wrapping the message). -/
def decodeStage {Ctx V : Type} (oper : Oper Ctx V) (body : String) :
    Except ErrVal (Option V) :=
  match oper.reqShape with
  | none => .ok none
  | some sh =>
    let dv : Except ErrVal V :=
      match sh.decode body with
      | .fail m =>
        .error (errorc 400 ("failed to decode body into " ++ sh.typeName ++ ": " ++ m))
      | .ok v => .ok v
      | .eof => .ok sh.zero
    match dv with
    | .error e => .error e
    | .ok v =>
      match sh.validate with
      | some f =>
        match f v with
        | some e => .error (errorc 400 ("invalid request: " ++ e.message))
        | none => .ok (some v)
      | none => .ok (some v)

/-- The body of `ServeHTTP` up to (but excluding) the deferred error
translator: returns the response-writer state, the collaborator events in
order, and the error left in `err` when the function returns (the value
the deferred block sees).  Mirrors src/server/server.go:78-122:
parse the operation name, look it up (404 listing all names on a miss),
decode and validate, create a context, invoke the handler (wrapping its
error with "<name> handler failed"), then — for a non-nil response —
marshal it, set `Content-Type` and write, with no check of the marshal
error before writing. -/
def serveCore {Ctx V : Type} (ms : MicroService Ctx V) (req : HRequest) (rw : RW) :
    RW × List (Event V) × Option ErrVal :=
  match parseOper req.path with
  | .error e => (rw, [], some e)
  | .ok operName =>
    match ms.oper operName with
    | none =>
      (rw, [.lookup operName],
        some (errorc 404 ("unknown operation " ++ operName ++ " != " ++
          String.intercalate "|" ms.operNames)))
    | some oper =>
      match decodeStage oper req.body with
      | .error e => (rw, [.lookup operName], some e)
      | .ok reqv =>
        match oper.handle (ms.newContext ()) reqv with
        | (res, herr) =>
          let evs : List (Event V) :=
            [.lookup operName, .newContext, .handle operName reqv]
          match herr with
          | some e => (rw, evs, some (wrapf e (operName ++ " handler failed")))
          | none =>
            match res with
            | none => (rw, evs, none)
            | some v =>
              match ms.marshal v with
              | .ok js => ((rw.setCT (some "application/json")).write js, evs, none)
              | .error m =>
                ((rw.setCT (some "application/json")).write "", evs,
                  some (errorf m))

/-- The result of one dispatch: the final response-writer state and the
collaborator events. -/
structure DispatchResult (V : Type) where
  rw : RW
  events : List (Event V)
deriving DecidableEq, Repr

/-- `ServeHTTP` in full: run the body, then the deferred translator
(src/server/server.go:59-75) — on a non-nil `err`, resolve the status
code and call `http.Error` on whatever response-writer state the body
left behind. -/
def serveHTTP {Ctx V : Type} (ms : MicroService Ctx V) (req : HRequest) :
    DispatchResult V :=
  match serveCore ms req RW.start with
  | (rw, evs, none) => ⟨rw, evs⟩
  | (rw, evs, some e) => ⟨httpError rw e.message (resolveCode e), evs⟩

/-! ### Reduction lemmas -/

theorem String.mk_eq_empty_iff (r : List Char) : String.mk r = "" ↔ r = [] := by
  constructor
  · intro h
    exact congrArg String.data h
  · intro h
    subst h
    rfl

theorem splitN2_cons_slash (p : String) (r : List Char) (hp : p.data = '/' :: r) :
    splitN2 p = ["", String.mk r] := by
  unfold splitN2
  rw [hp]
  simp [breakSlash]

theorem parseOper_valid (p : String) (r : List Char) (hp : p.data = '/' :: r)
    (hr : r ≠ []) : parseOper p = .ok (String.mk r) := by
  unfold parseOper
  rw [splitN2_cons_slash p r hp]
  simp [String.mk_eq_empty_iff, hr]

theorem parseOper_invalid (p : String)
    (h : p.data.head? ≠ some '/' ∨ p = "/") :
    parseOper p = .error (errorc 400 "URL does not start with /<operName>") := by
  rcases h with h | h
  · unfold parseOper splitN2
    rcases hd : p.data with _ | ⟨c, cs⟩
    · simp [breakSlash]
    · have hc : ¬ c = '/' := by
        intro hceq
        exact h (by rw [hd, hceq]; rfl)
      simp only [breakSlash, if_neg hc]
      rcases hb : breakSlash cs with _ | ⟨a, b⟩
      · simp [hb]
      · have hne : ¬ (String.mk (c :: a) = "" ∧ String.mk b ≠ "") := by
          intro hcon
          have hnil := (String.mk_eq_empty_iff (c :: a)).mp hcon.1
          simp at hnil
        simp [hb, hne]
  · subst h
    rfl

theorem serveCore_parse_error {Ctx V : Type} (ms : MicroService Ctx V)
    (req : HRequest) (rw : RW) (e : ErrVal)
    (hp : parseOper req.path = .error e) :
    serveCore ms req rw = (rw, ([] : List (Event V)), some e) := by
  unfold serveCore
  rw [hp]

theorem serveCore_lookup_miss {Ctx V : Type} (ms : MicroService Ctx V)
    (req : HRequest) (rw : RW) (n : String)
    (hp : parseOper req.path = .ok n) (ho : ms.oper n = none) :
    serveCore ms req rw =
      (rw, [Event.lookup n],
        some (errorc 404 ("unknown operation " ++ n ++ " != " ++
          String.intercalate "|" ms.operNames))) := by
  unfold serveCore
  rw [hp]
  simp only [ho]

theorem serveCore_decode_error {Ctx V : Type} (ms : MicroService Ctx V)
    (req : HRequest) (rw : RW) (n : String) (oper : Oper Ctx V) (e : ErrVal)
    (hp : parseOper req.path = .ok n) (ho : ms.oper n = some oper)
    (hd : decodeStage oper req.body = .error e) :
    serveCore ms req rw = (rw, [Event.lookup n], some e) := by
  unfold serveCore
  rw [hp]
  simp only [ho, hd]

theorem serveCore_handler_error {Ctx V : Type} (ms : MicroService Ctx V)
    (req : HRequest) (rw : RW) (n : String) (oper : Oper Ctx V)
    (rv res : Option V) (e : ErrVal)
    (hp : parseOper req.path = .ok n) (ho : ms.oper n = some oper)
    (hd : decodeStage oper req.body = .ok rv)
    (hh : oper.handle (ms.newContext ()) rv = (res, some e)) :
    serveCore ms req rw =
      (rw, [Event.lookup n, Event.newContext, Event.handle n rv],
        some (wrapf e (n ++ " handler failed"))) := by
  unfold serveCore
  rw [hp]
  simp only [ho, hd, hh]

theorem serveCore_success_none {Ctx V : Type} (ms : MicroService Ctx V)
    (req : HRequest) (rw : RW) (n : String) (oper : Oper Ctx V) (rv : Option V)
    (hp : parseOper req.path = .ok n) (ho : ms.oper n = some oper)
    (hd : decodeStage oper req.body = .ok rv)
    (hh : oper.handle (ms.newContext ()) rv = (none, none)) :
    serveCore ms req rw =
      (rw, [Event.lookup n, Event.newContext, Event.handle n rv], none) := by
  unfold serveCore
  rw [hp]
  simp only [ho, hd, hh]

theorem serveCore_success_some {Ctx V : Type} (ms : MicroService Ctx V)
    (req : HRequest) (rw : RW) (n : String) (oper : Oper Ctx V)
    (rv : Option V) (v : V) (js : String)
    (hp : parseOper req.path = .ok n) (ho : ms.oper n = some oper)
    (hd : decodeStage oper req.body = .ok rv)
    (hh : oper.handle (ms.newContext ()) rv = (some v, none))
    (hm : ms.marshal v = .ok js) :
    serveCore ms req rw =
      ((rw.setCT (some "application/json")).write js,
        [Event.lookup n, Event.newContext, Event.handle n rv], none) := by
  unfold serveCore
  rw [hp]
  simp only [ho, hd, hh, hm]

theorem serveCore_marshal_error {Ctx V : Type} (ms : MicroService Ctx V)
    (req : HRequest) (rw : RW) (n : String) (oper : Oper Ctx V)
    (rv : Option V) (v : V) (m : String)
    (hp : parseOper req.path = .ok n) (ho : ms.oper n = some oper)
    (hd : decodeStage oper req.body = .ok rv)
    (hh : oper.handle (ms.newContext ()) rv = (some v, none))
    (hm : ms.marshal v = .error m) :
    serveCore ms req rw =
      ((rw.setCT (some "application/json")).write "",
        [Event.lookup n, Event.newContext, Event.handle n rv],
        some (errorf m)) := by
  unfold serveCore
  rw [hp]
  simp only [ho, hd, hh, hm]

theorem serveHTTP_of_core_err {Ctx V : Type} (ms : MicroService Ctx V)
    (req : HRequest) (rw : RW) (evs : List (Event V)) (e : ErrVal)
    (h : serveCore ms req RW.start = (rw, evs, some e)) :
    serveHTTP ms req = ⟨httpError rw e.message (resolveCode e), evs⟩ := by
  unfold serveHTTP
  rw [h]

theorem serveHTTP_of_core_ok {Ctx V : Type} (ms : MicroService Ctx V)
    (req : HRequest) (rw : RW) (evs : List (Event V))
    (h : serveCore ms req RW.start = (rw, evs, none)) :
    serveHTTP ms req = ⟨rw, evs⟩ := by
  unfold serveHTTP
  rw [h]

theorem serveHTTP_events {Ctx V : Type} (ms : MicroService Ctx V) (req : HRequest) :
    (serveHTTP ms req).events = (serveCore ms req RW.start).2.1 := by
  unfold serveHTTP
  rcases h : serveCore ms req RW.start with ⟨rw, evs, err⟩
  rcases err with _ | e <;> rfl

theorem serveCore_events_head {Ctx V : Type} (ms : MicroService Ctx V)
    (req : HRequest) (rw : RW) (n : String)
    (hp : parseOper req.path = .ok n) :
    (serveCore ms req rw).2.1.head? = some (Event.lookup n) := by
  rcases ho : ms.oper n with _ | oper
  · rw [serveCore_lookup_miss ms req rw n hp ho]
    rfl
  · rcases hd : decodeStage oper req.body with e | rv
    · rw [serveCore_decode_error ms req rw n oper e hp ho hd]
      rfl
    · rcases hh : oper.handle (ms.newContext ()) rv with ⟨res, herr⟩
      rcases herr with _ | e
      · rcases res with _ | v
        · rw [serveCore_success_none ms req rw n oper rv hp ho hd hh]
          rfl
        · rcases hm : ms.marshal v with m | js
          · rw [serveCore_marshal_error ms req rw n oper rv v m hp ho hd hh hm]
            rfl
          · rw [serveCore_success_some ms req rw n oper rv v js hp ho hd hh hm]
            rfl
      · rw [serveCore_handler_error ms req rw n oper rv res e hp ho hd hh]
        rfl

theorem serveCore_events_shape {Ctx V : Type} (ms : MicroService Ctx V)
    (req : HRequest) (rw : RW) :
    (serveCore ms req rw).2.1 = [] ∨
    (∃ n, (serveCore ms req rw).2.1 = [Event.lookup n]) ∨
    (∃ n rv, (serveCore ms req rw).2.1 =
      [Event.lookup n, Event.newContext, Event.handle n rv]) := by
  rcases hp : parseOper req.path with e | n
  · rw [serveCore_parse_error ms req rw e hp]
    left
    rfl
  · rcases ho : ms.oper n with _ | oper
    · rw [serveCore_lookup_miss ms req rw n hp ho]
      right; left
      exact ⟨n, rfl⟩
    · rcases hd : decodeStage oper req.body with e | rv
      · rw [serveCore_decode_error ms req rw n oper e hp ho hd]
        right; left
        exact ⟨n, rfl⟩
      · rcases hh : oper.handle (ms.newContext ()) rv with ⟨res, herr⟩
        rcases herr with _ | e
        · rcases res with _ | v
          · rw [serveCore_success_none ms req rw n oper rv hp ho hd hh]
            right; right
            exact ⟨n, rv, rfl⟩
          · rcases hm : ms.marshal v with m | js
            · rw [serveCore_marshal_error ms req rw n oper rv v m hp ho hd hh hm]
              right; right
              exact ⟨n, rv, rfl⟩
            · rw [serveCore_success_some ms req rw n oper rv v js hp ho hd hh hm]
              right; right
              exact ⟨n, rv, rfl⟩
        · rw [serveCore_handler_error ms req rw n oper rv res e hp ho hd hh]
          right; right
          exact ⟨n, rv, rfl⟩

theorem empty_append_str (s : String) : "" ++ s = s := by
  rcases s with ⟨l⟩
  rfl

theorem httpError_start_status (msg : String) (c : Int) :
    (httpError RW.start msg c).finalStatus = c := by
  rfl

theorem httpError_start_body (msg : String) (c : Int) :
    (httpError RW.start msg c).finalBody = msg ++ "\n" := by
  show "" ++ (msg ++ "\n") = msg ++ "\n"
  exact empty_append_str _

theorem httpError_start_ct (msg : String) (c : Int) :
    (httpError RW.start msg c).finalCT = some "text/plain; charset=utf-8" := by
  rfl

theorem writeJson_start_status (js : String) :
    ((RW.start.setCT (some "application/json")).write js).finalStatus = 200 := by
  rfl

theorem writeJson_start_body (js : String) :
    ((RW.start.setCT (some "application/json")).write js).finalBody = js := by
  show "" ++ js = js
  exact empty_append_str _

theorem writeJson_start_ct (js : String) :
    ((RW.start.setCT (some "application/json")).write js).finalCT =
      some "application/json" := by
  rfl

/-! ### String helpers -/

theorem str_append_assoc (a b c : String) : (a ++ b) ++ c = a ++ (b ++ c) := by
  rcases a with ⟨x⟩
  rcases b with ⟨y⟩
  rcases c with ⟨z⟩
  show String.mk ((x ++ y) ++ z) = String.mk (x ++ (y ++ z))
  rw [List.append_assoc]

theorem data_append (a b : String) : (a ++ b).data = a.data ++ b.data := by
  rcases a with ⟨x⟩
  rcases b with ⟨y⟩
  rfl

/-- `leadsWith pat l`: `pat` is an initial run of `l`. -/
def leadsWith : List Char → List Char → Bool
  | [], _ => true
  | _ :: _, [] => false
  | a :: as, b :: bs => a == b && leadsWith as bs

/-- `hasSub pat l`: `pat` occurs contiguously inside `l`. -/
def hasSub (pat : List Char) : List Char → Bool
  | [] => leadsWith pat []
  | l@(_ :: rest) => leadsWith pat l || hasSub pat rest

/-- `mentions s pat`: `pat` occurs as a substring of `s`. -/
def mentions (s pat : String) : Bool :=
  hasSub pat.data s.data

theorem leadsWith_append (p q : List Char) : leadsWith p (p ++ q) = true := by
  induction p with
  | nil => rfl
  | cons a as ih => simp [leadsWith, ih]

theorem hasSub_append_left (p q : List Char) : hasSub p (p ++ q) = true := by
  cases p with
  | nil => cases q <;> simp [hasSub, leadsWith]
  | cons a as =>
    show hasSub (a :: as) (a :: (as ++ q)) = true
    simp [hasSub]
    left
    exact leadsWith_append (a :: as) q

theorem mentions_append_right (pat t : String) : mentions (pat ++ t) pat = true := by
  unfold mentions
  rw [data_append]
  exact hasSub_append_left _ _

theorem mentions_of_eq_append (s pat t : String) (h : s = pat ++ t) :
    mentions s pat = true := by
  subst h
  exact mentions_append_right pat t

/-! ### Server configuration (src/server/server.go:20-36) -/

/-- `Config` (src/server/server.go:20-23). -/
structure Config where
  Addr : String
  Port : Int
deriving DecidableEq, Repr

/-- `Config.Validate` (src/server/server.go:25-36): the error message, or
`none` when valid.  The checks run in source order: missing addr, then
missing port (zero), then negative port; Go's `%d` on an `int` is
modelled by `toString`. -/
def Config.Validate (c : Config) : Option String :=
  if c.Addr = "" then some "missing addr"
  else if c.Port = 0 then some "missing port"
  else if c.Port < 0 then some ("negative port:" ++ toString c.Port)
  else none

/-- C10 counterexample: at `Config{Addr: "", Port: 0}` the code returns
the error "missing addr", which does not mention "missing port" — the
claim's unconditional "returns an error mentioning 'missing port' when
Port is zero" fails when Addr is empty as well. -/
theorem C10_counterexample :
    Config.Validate ⟨"", 0⟩ = some "missing addr" ∧
    mentions "missing addr" "missing port" = false := by
  decide

/-- C10 (amended): `Config.Validate` returns `nil` iff `Addr` is non-empty
and `Port` strictly positive; the error cases apply in source order:
"missing addr" whenever `Addr` is empty, otherwise "missing port" when
`Port` is zero, otherwise "negative port:<Port>" when `Port` is negative. -/
theorem C10_validate_characterization (c : Config) :
    (c.Validate = none ↔ (c.Addr ≠ "" ∧ 0 < c.Port)) ∧
    (c.Addr = "" → c.Validate = some "missing addr") ∧
    (c.Addr ≠ "" → c.Port = 0 → c.Validate = some "missing port") ∧
    (c.Addr ≠ "" → c.Port < 0 →
      c.Validate = some ("negative port:" ++ toString c.Port)) := by
  rcases c with ⟨a, p⟩
  unfold Config.Validate
  by_cases ha : a = ""
  · simp [ha]
  · by_cases hp0 : p = 0
    · simp [ha, hp0]
    · by_cases hpn : p < 0
      · simp [ha, hp0, hpn]
        omega
      · simp [ha, hp0, hpn]
        omega

/-- C10 witness: the amended characterization applied at concrete
configurations exercising each case. -/
theorem C10_witness :
    Config.Validate ⟨"host", 0⟩ = some "missing port" ∧
    Config.Validate ⟨"host", -7⟩ = some ("negative port:" ++ toString (-7 : Int)) ∧
    Config.Validate ⟨"host", 8080⟩ = none :=
  ⟨(C10_validate_characterization ⟨"host", 0⟩).2.2.1 (by decide) rfl,
   (C10_validate_characterization ⟨"host", -7⟩).2.2.2 (by decide) (by decide),
   (C10_validate_characterization ⟨"host", 8080⟩).1.mpr ⟨by decide, by decide⟩⟩

/-! ### Claim C1: response-serialization failure -/

/-- An operation whose handler returns a non-nil response value that the
marshaller rejects. -/
def operC1 : Oper Unit Unit :=
  { reqShape := none, handle := fun _ _ => (some (), none) }

/-- A micro-service with the single operation `bad`; its `json.Marshal`
fails on the response value (as it does in Go for a value containing a
channel). -/
def msC1 : MicroService Unit Unit :=
  { opers := [("bad", operC1)],
    newContext := fun _ => (),
    marshal := fun _ => .error "json: unsupported type: chan int" }

/-- C1: the claim says a failed response serialization flows through the
terminal translator so the response carries the translator-resolved
status (500) with the error message as body.  The code
(src/server/server.go:117-122) assigns the marshal error to `err` but
writes the (empty) body before the deferred translator runs, committing
status 200; `http.Error`'s `WriteHeader(500)` is then superfluous.  At
the failing input the translator would resolve 500 and the message does
reach the body, but the status actually sent is 200 and the
`Content-Type` stays `application/json`. -/
theorem C1_marshal_error_commits_200 :
    resolveCode (errorf "json: unsupported type: chan int") = 500 ∧
    (serveHTTP msC1 ⟨"GET", "/bad", ""⟩).rw.finalStatus = 200 ∧
    (serveHTTP msC1 ⟨"GET", "/bad", ""⟩).rw.finalBody =
      "json: unsupported type: chan int\n" ∧
    (serveHTTP msC1 ⟨"GET", "/bad", ""⟩).rw.finalCT = some "application/json" := by
  decide

/-! ### Claim C2: the operation name taken from the path -/

/-- Modelled from the spec: "the first path segment after the leading
separator" — the characters after the leading `/` up to the next `/`. -/
def firstSegmentAfterSlash (p : String) : String :=
  String.mk ((p.data.drop 1).takeWhile (fun c => c != '/'))

theorem takeWhile_no_slash (r : List Char) (h : ¬ '/' ∈ r) :
    r.takeWhile (fun c => c != '/') = r := by
  induction r with
  | nil => rfl
  | cons c cs ih =>
    simp only [List.mem_cons, not_or] at h
    have hc : c ≠ '/' := fun hh => h.1 hh.symm
    simp [List.takeWhile_cons, hc, ih h.2]

/-- A micro-service with an empty registry (for observing lookups). -/
def msEmptyU : MicroService Unit Unit :=
  { opers := [],
    newContext := fun _ => (),
    marshal := fun _ => .ok "" }

/-- C2 counterexample: for the valid-form path "/a/b" the first path
segment after the leading separator is "a", but the dispatcher consults
the registry for "a/b" — `SplitN(path, "/", 2)` keeps the entire
remainder as the name. -/
theorem C2_counterexample :
    firstSegmentAfterSlash "/a/b" = "a" ∧
    (serveHTTP msEmptyU ⟨"GET", "/a/b", ""⟩).events = [Event.lookup "a/b"] ∧
    ("a/b" : String) ≠ "a" := by
  decide

/-- C2 (amended): for every valid-form path (leading separator followed
by a non-empty remainder) the name the dispatcher looks up in the
registry is the entire remainder of the path after the leading
separator; it coincides with the first path segment exactly when the
remainder contains no further separator. -/
theorem C2_lookup_full_remainder {Ctx V : Type} (ms : MicroService Ctx V)
    (m b p : String) (r : List Char)
    (hp : p.data = '/' :: r) (hr : r ≠ []) :
    (serveHTTP ms ⟨m, p, b⟩).events.head? = some (Event.lookup (String.mk r)) ∧
    (¬ '/' ∈ r → firstSegmentAfterSlash p = String.mk r) := by
  constructor
  · rw [serveHTTP_events]
    exact serveCore_events_head ms ⟨m, p, b⟩ RW.start (String.mk r)
      (parseOper_valid p r hp hr)
  · intro h
    unfold firstSegmentAfterSlash
    rw [hp]
    simp [takeWhile_no_slash r h]

/-- C2 witness: the amended theorem at "/a/b" (name is the remainder
"a/b") and at "/ab" (no further separator, so the name is also the first
segment). -/
theorem C2_witness :
    (serveHTTP msEmptyU ⟨"GET", "/a/b", ""⟩).events.head? =
      some (Event.lookup (String.mk ['a', '/', 'b'])) ∧
    firstSegmentAfterSlash "/ab" = String.mk ['a', 'b'] :=
  ⟨(C2_lookup_full_remainder msEmptyU "GET" "" "/a/b" ['a', '/', 'b'] rfl
      (by decide)).1,
   (C2_lookup_full_remainder msEmptyU "GET" "" "/ab" ['a', 'b'] rfl
      (by decide)).2 (by decide)⟩

/-! ### Claim C3: the context factory -/

/-- Number of `NewContext()` invocations observed in a trace. -/
def countNewContext {V : Type} (evs : List (Event V)) : Nat :=
  evs.countP (fun e => match e with | .newContext => true | _ => false)

/-- Whether the handler was invoked in a trace. -/
def hasHandle {V : Type} (evs : List (Event V)) : Bool :=
  evs.any (fun e => match e with | .handle _ _ => true | _ => false)

/-- C3 counterexample: a request failing at parsing (path "nope") never
invokes `NewContext()` — zero invocations, not the claimed exactly one. -/
theorem C3_counterexample :
    countNewContext (serveHTTP msEmptyU ⟨"GET", "nope", ""⟩).events = 0 ∧
    (0 : Nat) ≠ 1 := by
  decide

/-- C3 (amended): per request the trace is one of: nothing (parse
failure), a lone registry lookup (lookup/decode/validation failure), or
lookup then `NewContext()` then the handler — so `NewContext()` runs
exactly once when and only when the handler is invoked, immediately
before it, and never for requests that fail earlier. -/
theorem C3_context_once_before_handle {Ctx V : Type} (ms : MicroService Ctx V)
    (req : HRequest) :
    ((serveHTTP ms req).events = [] ∨
     (∃ n, (serveHTTP ms req).events = [Event.lookup n]) ∨
     (∃ n rv, (serveHTTP ms req).events =
        [Event.lookup n, Event.newContext, Event.handle n rv])) ∧
    countNewContext (serveHTTP ms req).events =
      (if hasHandle (serveHTTP ms req).events then 1 else 0) := by
  have hshape := serveCore_events_shape ms req RW.start
  rw [← serveHTTP_events] at hshape
  refine ⟨hshape, ?_⟩
  rcases hshape with h | ⟨n, h⟩ | ⟨n, rv, h⟩ <;> rw [h] <;> rfl

/-! ### Claim C4: handler errors keep their embedded status code -/

theorem resolveCode_wrapf (e : ErrVal) (ctxMsg : String) :
    resolveCode (wrapf e ctxMsg) = resolveCode e := rfl

/-- C4: a handler error carrying a recognized status code is wrapped with
"<name> handler failed" context (src/server/server.go:111-114); the
response carries exactly that code, and the body retains the operation
name and the wrap context — the wrapping does not lose the embedded
code. -/
theorem C4_handler_error_keeps_code {Ctx V : Type} (ms : MicroService Ctx V)
    (m b p : String) (r : List Char) (oper : Oper Ctx V) (rv res : Option V)
    (e : ErrVal) (c : Int)
    (hp : p.data = '/' :: r) (hr : r ≠ [])
    (ho : ms.oper (String.mk r) = some oper)
    (hd : decodeStage oper b = .ok rv)
    (hh : oper.handle (ms.newContext ()) rv = (res, some e))
    (hc : e.code = some c) (hrec : statusText c ≠ "") :
    (serveHTTP ms ⟨m, p, b⟩).rw.finalStatus = c ∧
    (serveHTTP ms ⟨m, p, b⟩).rw.finalBody =
      (String.mk r ++ " handler failed") ++ ": " ++ e.message ++ "\n" ∧
    mentions (serveHTTP ms ⟨m, p, b⟩).rw.finalBody
      (String.mk r ++ " handler failed") = true := by
  have hcore := serveCore_handler_error ms ⟨m, p, b⟩ RW.start (String.mk r)
    oper rv res e (parseOper_valid p r hp hr) ho hd hh
  rw [serveHTTP_of_core_err _ _ _ _ _ hcore]
  have hres : resolveCode (wrapf e (String.mk r ++ " handler failed")) = c := by
    rw [resolveCode_wrapf]
    unfold resolveCode
    rw [hc]
    simp [hrec]
  have hbody : (httpError RW.start
      (wrapf e (String.mk r ++ " handler failed")).message
      (resolveCode (wrapf e (String.mk r ++ " handler failed")))).finalBody =
      (String.mk r ++ " handler failed") ++ ": " ++ e.message ++ "\n" := by
    rw [httpError_start_body]
    rfl
  refine ⟨?_, hbody, ?_⟩
  · rw [httpError_start_status]
    exact hres
  · apply mentions_of_eq_append _ _ (": " ++ (e.message ++ "\n"))
    rw [hbody]
    simp only [str_append_assoc]

/-- The operation for the C4 witness: its handler fails with an embedded
409 status. -/
def operC4 : Oper Unit Unit :=
  { reqShape := none,
    handle := fun _ _ => (none, some (errorc 409 "conflict on write")) }

def msC4 : MicroService Unit Unit :=
  { opers := [("upd", operC4)],
    newContext := fun _ => (),
    marshal := fun _ => .ok "" }

/-- C4 witness: a handler error with embedded status 409 yields status
409 and a body naming the operation. -/
theorem C4_witness :
    (serveHTTP msC4 ⟨"POST", "/upd", ""⟩).rw.finalStatus = 409 ∧
    (serveHTTP msC4 ⟨"POST", "/upd", ""⟩).rw.finalBody =
      "upd handler failed: conflict on write\n" := by
  have h := C4_handler_error_keeps_code msC4 "POST" "" "/upd" ['u', 'p', 'd']
    operC4 none none (errorc 409 "conflict on write") 409
    rfl (by decide) rfl rfl rfl rfl (by decide)
  exact ⟨h.1, by rw [h.2.1]; decide⟩

/-! ### Claim C5: unset or unrecognized codes resolve to 500 -/

/-- C5 counterexample: one error reaching the terminal translator with an
unset code does NOT produce a 500 response — the response-serialization
error, for which the body write has already committed status 200 before
the deferred translator runs (src/server/server.go:117-122). -/
theorem C5_counterexample :
    (errorf "json: unsupported type: chan int").code = none ∧
    (serveHTTP msC1 ⟨"GET", "/bad", ""⟩).rw.finalStatus = 200 ∧
    (200 : Int) ≠ 500 := by
  decide

/-- C5 (amended): an error whose code is unset or not a recognized HTTP
status resolves to 500 in the terminal translator
(src/server/server.go:59-66), and every handler error with such a code
yields response status 500 (the wrap preserves the absent code; nothing
was written before the translator ran).  The lone exception to the
original universal claim is the response-serialization error, where the
status is already committed — see the counterexample. -/
theorem C5_unrecognized_resolves_500 {Ctx V : Type} (ms : MicroService Ctx V)
    (m b p : String) (r : List Char) (oper : Oper Ctx V) (rv res : Option V)
    (e : ErrVal)
    (hp : p.data = '/' :: r) (hr : r ≠ [])
    (ho : ms.oper (String.mk r) = some oper)
    (hd : decodeStage oper b = .ok rv)
    (hh : oper.handle (ms.newContext ()) rv = (res, some e))
    (hc : e.code = none ∨ ∃ c, e.code = some c ∧ statusText c = "") :
    resolveCode e = 500 ∧
    (serveHTTP ms ⟨m, p, b⟩).rw.finalStatus = 500 := by
  have hres : resolveCode e = 500 := by
    unfold resolveCode
    rcases hc with hc | ⟨c, hc, htxt⟩
    · rw [hc]
    · rw [hc]
      simp [htxt]
  have hcore := serveCore_handler_error ms ⟨m, p, b⟩ RW.start (String.mk r)
    oper rv res e (parseOper_valid p r hp hr) ho hd hh
  rw [serveHTTP_of_core_err _ _ _ _ _ hcore]
  refine ⟨hres, ?_⟩
  rw [httpError_start_status, resolveCode_wrapf]
  exact hres

/-- The operation for the C5 witness: its handler fails with a plain
error carrying no status code. -/
def operC5 : Oper Unit Unit :=
  { reqShape := none,
    handle := fun _ _ => (none, some (errorf "boom")) }

def msC5 : MicroService Unit Unit :=
  { opers := [("frail", operC5)],
    newContext := fun _ => (),
    marshal := fun _ => .ok "" }

/-- C5 witness: a handler error without an embedded code yields 500. -/
theorem C5_witness :
    resolveCode (errorf "boom") = 500 ∧
    (serveHTTP msC5 ⟨"GET", "/frail", ""⟩).rw.finalStatus = 500 :=
  C5_unrecognized_resolves_500 msC5 "GET" "" "/frail" ['f', 'r', 'a', 'i', 'l']
    operC5 none none (errorf "boom")
    rfl (by decide) rfl rfl rfl (Or.inl rfl)

/-! ### Claim C6: malformed paths -/

/-- A micro-service with the single no-payload operation `ping`. -/
def operPing : Oper Unit Unit :=
  { reqShape := none, handle := fun _ _ => (none, none) }

def msC6 : MicroService Unit Unit :=
  { opers := [("ping", operPing)],
    newContext := fun _ => (),
    marshal := fun _ => .ok "" }

/-- C6 counterexample: the path "//x" has an empty first segment, yet the
dispatcher does consult the registry (with name "/x") and answers 404,
not the claimed 400 — `SplitN` only requires a non-empty remainder after
the leading separator. -/
theorem C6_counterexample :
    firstSegmentAfterSlash "//x" = "" ∧
    (serveHTTP msC6 ⟨"GET", "//x", ""⟩).events = [Event.lookup "/x"] ∧
    (serveHTTP msC6 ⟨"GET", "//x", ""⟩).rw.finalStatus = 404 := by
  decide

/-- C6 (amended): for every path that does not start with `/` or is
exactly "/" (an empty remainder after the separator), the dispatcher
answers 400 with body "URL does not start with /<operName>", without
consulting the registry or invoking any handler (no events at all). -/
theorem C6_bad_path_400 {Ctx V : Type} (ms : MicroService Ctx V)
    (m b p : String) (h : p.data.head? ≠ some '/' ∨ p = "/") :
    (serveHTTP ms ⟨m, p, b⟩).rw.finalStatus = 400 ∧
    (serveHTTP ms ⟨m, p, b⟩).rw.finalBody =
      "URL does not start with /<operName>\n" ∧
    (serveHTTP ms ⟨m, p, b⟩).events = [] := by
  have hcore := serveCore_parse_error ms ⟨m, p, b⟩ RW.start _ (parseOper_invalid p h)
  rw [serveHTTP_of_core_err _ _ _ _ _ hcore]
  refine ⟨?_, ?_, rfl⟩
  · rw [httpError_start_status]
    decide
  · rw [httpError_start_body]
    rfl

/-- C6 witness: the amended theorem at a path without a leading
separator and at the bare separator. -/
theorem C6_witness :
    (serveHTTP msC6 ⟨"GET", "ping", ""⟩).rw.finalStatus = 400 ∧
    (serveHTTP msC6 ⟨"GET", "/", ""⟩).rw.finalBody =
      "URL does not start with /<operName>\n" :=
  ⟨(C6_bad_path_400 msC6 "GET" "" "ping" (Or.inl (by decide))).1,
   (C6_bad_path_400 msC6 "GET" "" "/" (Or.inr rfl)).2.1⟩

/-! ### Claim C7: unknown operations -/

/-- C7: a parsed name missing from the registry yields 404, and the body
lists every registered operation name joined by "|"
(src/server/server.go:87-91). -/
theorem C7_unknown_oper_404 {Ctx V : Type} (ms : MicroService Ctx V)
    (m b p : String) (r : List Char)
    (hp : p.data = '/' :: r) (hr : r ≠ [])
    (ho : ms.oper (String.mk r) = none) :
    (serveHTTP ms ⟨m, p, b⟩).rw.finalStatus = 404 ∧
    (serveHTTP ms ⟨m, p, b⟩).rw.finalBody =
      "unknown operation " ++ String.mk r ++ " != " ++
        String.intercalate "|" ms.operNames ++ "\n" ∧
    ms.operNames = ms.opers.map Prod.fst := by
  have hcore := serveCore_lookup_miss ms ⟨m, p, b⟩ RW.start (String.mk r)
    (parseOper_valid p r hp hr) ho
  rw [serveHTTP_of_core_err _ _ _ _ _ hcore]
  refine ⟨?_, ?_, rfl⟩
  · rw [httpError_start_status]
    rfl
  · rw [httpError_start_body]
    rfl

/-- C7 witness: looking up "zzz" against a registry holding only `ping`
yields 404 and a body enumerating the registered names. -/
theorem C7_witness :
    (serveHTTP msC6 ⟨"GET", "/zzz", ""⟩).rw.finalStatus = 404 ∧
    (serveHTTP msC6 ⟨"GET", "/zzz", ""⟩).rw.finalBody =
      "unknown operation " ++ String.mk ['z', 'z', 'z'] ++ " != " ++
        String.intercalate "|" msC6.operNames ++ "\n" :=
  ⟨(C7_unknown_oper_404 msC6 "GET" "" "/zzz" ['z', 'z', 'z'] rfl (by decide)
      rfl).1,
   (C7_unknown_oper_404 msC6 "GET" "" "/zzz" ['z', 'z', 'z'] rfl (by decide)
      rfl).2.1⟩

/-! ### Claim C8: empty bodies and parse failures -/

theorem serveCore_events_of_decoded {Ctx V : Type} (ms : MicroService Ctx V)
    (req : HRequest) (rw : RW) (n : String) (oper : Oper Ctx V) (rv : Option V)
    (hp : parseOper req.path = .ok n) (ho : ms.oper n = some oper)
    (hd : decodeStage oper req.body = .ok rv) :
    (serveCore ms req rw).2.1 =
      [Event.lookup n, Event.newContext, Event.handle n rv] := by
  rcases hh : oper.handle (ms.newContext ()) rv with ⟨res, herr⟩
  rcases herr with _ | e
  · rcases res with _ | v
    · rw [serveCore_success_none ms req rw n oper rv hp ho hd hh]
    · rcases hm : ms.marshal v with mmsg | js
      · rw [serveCore_marshal_error ms req rw n oper rv v mmsg hp ho hd hh hm]
      · rw [serveCore_success_some ms req rw n oper rv v js hp ho hd hh hm]
  · rw [serveCore_handler_error ms req rw n oper rv res e hp ho hd hh]

theorem decodeStage_eof {Ctx V : Type} (oper : Oper Ctx V) (sh : ReqShape V)
    (body : String) (hsh : oper.reqShape = some sh)
    (heof : sh.decode body = .eof)
    (hv : sh.validate = none ∨ ∃ f, sh.validate = some f ∧ f sh.zero = none) :
    decodeStage oper body = .ok (some sh.zero) := by
  unfold decodeStage
  rw [hsh]
  simp only [heof]
  rcases hv with hv | ⟨f, hv, hz⟩
  · rw [hv]
  · rw [hv]
    simp [hz]

theorem decodeStage_fail {Ctx V : Type} (oper : Oper Ctx V) (sh : ReqShape V)
    (body msg : String) (hsh : oper.reqShape = some sh)
    (hfail : sh.decode body = .fail msg) :
    decodeStage oper body =
      .error (errorc 400
        ("failed to decode body into " ++ sh.typeName ++ ": " ++ msg)) := by
  unfold decodeStage
  rw [hsh]
  simp only [hfail]

/-- A request shape whose validation capability rejects the zero value. -/
def shC8 : ReqShape Nat :=
  { typeName := "server.CreateRequest",
    zero := 0,
    decode := fun b => if b = "" then .eof else .ok 1,
    validate := some (fun v =>
      if v = 0 then some (errorf "name must not be empty") else none) }

def operC8 : Oper Unit Nat :=
  { reqShape := some shC8, handle := fun _ _ => (none, none) }

def msC8 : MicroService Unit Nat :=
  { opers := [("create", operC8)],
    newContext := fun _ => (),
    marshal := fun _ => .ok "" }

/-- C8 counterexample: for an operation whose declared shape validates —
and whose validator rejects the zero value — an empty body IS an error:
the empty body decodes to `io.EOF`, the zero value then fails validation
(src/server/server.go:101-106), so the dispatcher answers 400 "invalid
request: …" and the handler is never invoked, against the claim's "a
request with an empty body is not an error: the handler is invoked with
the zero-valued/default instance". -/
theorem C8_counterexample :
    (serveHTTP msC8 ⟨"POST", "/create", ""⟩).rw.finalStatus = 400 ∧
    hasHandle (serveHTTP msC8 ⟨"POST", "/create", ""⟩).events = false ∧
    mentions (serveHTTP msC8 ⟨"POST", "/create", ""⟩).rw.finalBody
      "invalid request" = true := by
  decide

/-- C8 (amended): for an operation declaring a request shape, an empty
body is not a decode error — the end-of-input condition is tolerated and
the shape's zero value flows on; provided the shape declares no
validation capability (or validation accepts the zero value) the handler
is invoked with the zero-valued instance.  A genuine parse failure
instead yields 400 naming the shape. -/
theorem C8_empty_body_zero_value {Ctx V : Type} (ms : MicroService Ctx V)
    (m p : String) (r : List Char) (oper : Oper Ctx V) (sh : ReqShape V)
    (hp : p.data = '/' :: r) (hr : r ≠ [])
    (ho : ms.oper (String.mk r) = some oper)
    (hsh : oper.reqShape = some sh)
    (heof : sh.decode "" = .eof)
    (hv : sh.validate = none ∨ ∃ f, sh.validate = some f ∧ f sh.zero = none) :
    decodeStage oper "" = .ok (some sh.zero) ∧
    (serveHTTP ms ⟨m, p, ""⟩).events =
      [Event.lookup (String.mk r), Event.newContext,
        Event.handle (String.mk r) (some sh.zero)] ∧
    (∀ b msg, sh.decode b = .fail msg →
      (serveHTTP ms ⟨m, p, b⟩).rw.finalStatus = 400 ∧
      (serveHTTP ms ⟨m, p, b⟩).rw.finalBody =
        "failed to decode body into " ++ sh.typeName ++ ": " ++ msg ++ "\n") := by
  have hdec := decodeStage_eof oper sh "" hsh heof hv
  refine ⟨hdec, ?_, ?_⟩
  · rw [serveHTTP_events]
    exact serveCore_events_of_decoded ms ⟨m, p, ""⟩ RW.start (String.mk r) oper
      (some sh.zero) (parseOper_valid p r hp hr) ho hdec
  · intro b msg hfail
    have hcore := serveCore_decode_error ms ⟨m, p, b⟩ RW.start (String.mk r) oper _
      (parseOper_valid p r hp hr) ho (decodeStage_fail oper sh b msg hsh hfail)
    rw [serveHTTP_of_core_err _ _ _ _ _ hcore]
    constructor
    · rw [httpError_start_status]
      rfl
    · rw [httpError_start_body]
      rfl

/-- A request shape with no validation capability, for the C8 witness. -/
def shC8w : ReqShape Nat :=
  { typeName := "server.EchoRequest",
    zero := 7,
    decode := fun b => if b = "" then .eof else .fail "invalid character",
    validate := none }

def operC8w : Oper Unit Nat :=
  { reqShape := some shC8w, handle := fun _ _ => (none, none) }

def msC8w : MicroService Unit Nat :=
  { opers := [("echo", operC8w)],
    newContext := fun _ => (),
    marshal := fun _ => .ok "" }

/-- C8 witness: with no validator, an empty body reaches the handler as
the shape's zero value, and a malformed body yields 400. -/
theorem C8_witness :
    decodeStage operC8w "" = .ok (some (7 : Nat)) ∧
    (serveHTTP msC8w ⟨"POST", "/echo", ""⟩).events =
      [Event.lookup "echo", Event.newContext, Event.handle "echo" (some 7)] ∧
    (serveHTTP msC8w ⟨"POST", "/echo", "oops"⟩).rw.finalStatus = 400 := by
  have h := C8_empty_body_zero_value msC8w "POST" "/echo" ['e', 'c', 'h', 'o']
    operC8w shC8w rfl (by decide) rfl rfl rfl (Or.inl rfl)
  exact ⟨h.1, h.2.1, (h.2.2 "oops" "invalid character" rfl).1⟩

/-! ### Claim C9: successful responses -/

/-- C9: when the handler succeeds, a non-nil response that serializes is
written as the body with `Content-Type: application/json` and the
transport default status 200 (src/server/server.go:117-122); a nil
response writes nothing — empty body, no content type, default 200. -/
theorem C9_success_encoding {Ctx V : Type} (ms : MicroService Ctx V)
    (m b p : String) (r : List Char) (oper : Oper Ctx V) (rv res : Option V)
    (hp : p.data = '/' :: r) (hr : r ≠ [])
    (ho : ms.oper (String.mk r) = some oper)
    (hd : decodeStage oper b = .ok rv)
    (hh : oper.handle (ms.newContext ()) rv = (res, none)) :
    (∀ v js, res = some v → ms.marshal v = .ok js →
      (serveHTTP ms ⟨m, p, b⟩).rw.finalStatus = 200 ∧
      (serveHTTP ms ⟨m, p, b⟩).rw.finalCT = some "application/json" ∧
      (serveHTTP ms ⟨m, p, b⟩).rw.finalBody = js) ∧
    (res = none →
      (serveHTTP ms ⟨m, p, b⟩).rw.finalStatus = 200 ∧
      (serveHTTP ms ⟨m, p, b⟩).rw.finalCT = none ∧
      (serveHTTP ms ⟨m, p, b⟩).rw.finalBody = "") := by
  constructor
  · rintro v js rfl hm
    have hcore := serveCore_success_some ms ⟨m, p, b⟩ RW.start (String.mk r)
      oper rv v js (parseOper_valid p r hp hr) ho hd hh hm
    rw [serveHTTP_of_core_ok _ _ _ _ hcore]
    exact ⟨writeJson_start_status js, writeJson_start_ct js, writeJson_start_body js⟩
  · rintro rfl
    have hcore := serveCore_success_none ms ⟨m, p, b⟩ RW.start (String.mk r)
      oper rv (parseOper_valid p r hp hr) ho hd hh
    rw [serveHTTP_of_core_ok _ _ _ _ hcore]
    exact ⟨rfl, rfl, rfl⟩

/-- The operations for the C9 witness: `ping` answers `true`, `quiet`
answers nothing. -/
def operC9a : Oper Unit Bool :=
  { reqShape := none, handle := fun _ _ => (some true, none) }

def operC9b : Oper Unit Bool :=
  { reqShape := none, handle := fun _ _ => (none, none) }

def msC9 : MicroService Unit Bool :=
  { opers := [("ping", operC9a), ("quiet", operC9b)],
    newContext := fun _ => (),
    marshal := fun v => .ok (if v then "true" else "false") }

/-- C9 witness: `GET /ping` yields `200` `application/json` `true`;
`GET /quiet` yields `200` with no body and no content type. -/
theorem C9_witness :
    ((serveHTTP msC9 ⟨"GET", "/ping", ""⟩).rw.finalStatus = 200 ∧
      (serveHTTP msC9 ⟨"GET", "/ping", ""⟩).rw.finalCT = some "application/json" ∧
      (serveHTTP msC9 ⟨"GET", "/ping", ""⟩).rw.finalBody = "true") ∧
    ((serveHTTP msC9 ⟨"GET", "/quiet", ""⟩).rw.finalStatus = 200 ∧
      (serveHTTP msC9 ⟨"GET", "/quiet", ""⟩).rw.finalCT = none ∧
      (serveHTTP msC9 ⟨"GET", "/quiet", ""⟩).rw.finalBody = "") :=
  ⟨(C9_success_encoding msC9 "GET" "" "/ping" ['p', 'i', 'n', 'g'] operC9a
      none (some true) rfl (by decide) rfl rfl rfl).1 true "true" rfl rfl,
   (C9_success_encoding msC9 "GET" "" "/quiet" ['q', 'u', 'i', 'e', 't'] operC9b
      none none rfl (by decide) rfl rfl rfl).2 rfl⟩

end GoHttp
